import Mathlib

/-!
Verification development for the doctolib-watcher program (src/main.py).

The Python source is shallowly embedded: pure helpers become Lean functions,
the sqlite table sent_slots becomes an explicit list of records threaded
through the operations, Python exceptions become Except values, and the
delivery outcome of the Discord notifier is an explicit boolean input.  Machine
integers are modelled as Nat/Int (no overflow is relevant here).  Slot values
flowing through the per-doctor pipeline are restricted to strings, matching
the data model (a Slot is an opaque upstream timestamp string).
-/

namespace DoctolibWatcher

/-! ### Character-list string primitives

Python string operations used by the source (substring test via the in
operator, str.split on a single character, str.join, str.replace with a
one-character pattern, lexicographic comparison as performed by sqlite on
TEXT values) are modelled over lists of characters, with String wrappers. -/

/-- Does the second list start with the first one? -/
def startsWithList : List Char → List Char → Bool
  | [], _ => true
  | _ :: _, [] => false
  | a :: as, b :: bs => a == b && startsWithList as bs

/-- Substring test: models the Python expression needle in s on strings. -/
def containsList (needle : List Char) : List Char → Bool
  | [] => needle.isEmpty
  | c :: rest => startsWithList needle (c :: rest) || containsList needle rest

/-- Substring test on strings: models needle in s. -/
def hasSubstr (s pat : String) : Bool := containsList pat.toList s.toList

/-- Models Python str.split(sep) for a one-character separator: the result is
always nonempty and keeps empty pieces. -/
def splitChar (sep : Char) : List Char → List (List Char)
  | [] => [[]]
  | c :: rest =>
    let groups := splitChar sep rest
    if c == sep then [] :: groups
    else
      match groups with
      | [] => [[c]]
      | g :: gs => (c :: g) :: gs

/-- Models Python sep.join(pieces) for a one-character separator. -/
def joinChar (sep : Char) : List (List Char) → List Char
  | [] => []
  | [g] => g
  | g :: gs => g ++ sep :: joinChar sep gs

/-- Models Python s.replace(pat, repl) for a one-character pattern
(every occurrence is replaced). -/
def replaceChar (pat : Char) (repl : List Char) : List Char → List Char
  | [] => []
  | c :: rest => (if c == pat then repl else [c]) ++ replaceChar pat repl rest

/-- Lexicographic order on character lists by code point; for the ASCII
strings stored by this program it agrees with the memcmp TEXT order of sqlite. -/
def charListLt : List Char → List Char → Bool
  | [], [] => false
  | [], _ :: _ => true
  | _ :: _, [] => false
  | a :: as, b :: bs => if a < b then true else if b < a then false else charListLt as bs

/-- String comparison as sqlite performs it on TEXT values. -/
def strLtB (a b : String) : Bool := charListLt a.toList b.toList

/-! ### JSON values and the Python dynamics used by slot extraction

A fetch result (the value returned by response.json(), or the empty dict
used on any fetch failure) is an arbitrary JSON value.  The bits of Python
dynamic semantics that _extract_available_slots exercises are modelled
explicitly: truthiness, the in operator, subscripting, iteration and the
dict .get method, each raising the corresponding exception class where
Python would. -/

/-- JSON-like Python values.  Objects are association lists (Python dicts
have unique keys; lookup takes the first binding). -/
inductive JValue where
  | null
  | bool (b : Bool)
  | num (n : Int)
  | str (s : String)
  | arr (xs : List JValue)
  | obj (fields : List (String × JValue))

/-- The Python exception classes that the embedded code can raise. -/
inductive PyError where
  | typeError
  | attributeError
  | keyError
deriving DecidableEq

/-- Python truthiness of a JSON value (used by the if data: guard and the
if availability.get slots: guard). -/
def JValue.truthy : JValue → Bool
  | .null => false
  | .bool b => b
  | .num n => n != 0
  | .str s => s != ""
  | .arr xs => !xs.isEmpty
  | .obj fs => !fs.isEmpty

/-- Python equality comparison of a string against a JSON value, as the in
operator performs element-wise on lists (a str never equals a non-str). -/
def strEqJValue (k : String) : JValue → Bool
  | .str s => s == k
  | _ => false

/-- Models the Python expression k in data: key test on dicts, element test
on lists, substring test on strings, TypeError on non-containers. -/
def pyContains (k : String) : JValue → Except PyError Bool
  | .obj fs => .ok (fs.any (fun f => f.fst == k))
  | .arr xs => .ok (xs.any (strEqJValue k))
  | .str s => .ok (hasSubstr s k)
  | _ => .error .typeError

/-- Models the Python expression data[k]: dict lookup raising KeyError on a
missing key, TypeError on every non-dict (list and str subscripts require
integers). -/
def pySubscript (data : JValue) (k : String) : Except PyError JValue :=
  match data with
  | .obj fs =>
    match fs.lookup k with
    | some v => .ok v
    | none => .error .keyError
  | _ => .error .typeError

/-- Models Python iteration: lists yield their elements, strings their
one-character substrings, dicts their keys; everything else raises
TypeError. -/
def pyIter : JValue → Except PyError (List JValue)
  | .arr xs => .ok xs
  | .str s => .ok (s.toList.map (fun c => .str (String.singleton c)))
  | .obj fs => .ok (fs.map (fun f => .str f.fst))
  | _ => .error .typeError

/-- The loop body of _extract_available_slots over the availability entries:
availability.get slots (AttributeError on non-dicts, default None), the
truthiness guard, and slots.extend which iterates its argument. -/
def extractLoop (acc : List JValue) : List JValue → Except PyError (List JValue)
  | [] => .ok acc
  | availability :: rest =>
    match availability with
    | .obj fs =>
      let slotsVal := (fs.lookup "slots").getD JValue.null
      if slotsVal.truthy then
        match pyIter slotsVal with
        | .error e => .error e
        | .ok elems => extractLoop (acc ++ elems) rest
      else extractLoop acc rest
    | _ => .error .attributeError

/-- Embeds _extract_available_slots (src/main.py lines 193-200). -/
def extractAvailableSlots (data : JValue) : Except PyError (List JValue) :=
  match pyContains "availabilities" data with
  | .error e => .error e
  | .ok true =>
    match pySubscript data "availabilities" with
    | .error e => .error e
    | .ok avs =>
      match pyIter avs with
      | .error e => .error e
      | .ok entries => extractLoop [] entries
  | .ok false => .ok []

/-- Restriction of extracted slot values to strings.  A Slot is an opaque
upstream timestamp string (spec data model); the per-doctor pipeline below
is modelled on that state space, so fetch results whose slot entries are
not strings are outside the model and mapped to an error. -/
def strValues : List JValue → Except PyError (List String)
  | [] => .ok []
  | .str s :: rest =>
    match strValues rest with
    | .error e => .error e
    | .ok ss => .ok (s :: ss)
  | _ :: _ => .error .typeError

/-- Slot extraction producing the slot strings of one fetch result. -/
def extractSlotStrings (data : JValue) : Except PyError (List String) :=
  match extractAvailableSlots data with
  | .error e => .error e
  | .ok vs => strValues vs

/-! ### Calendar dates and timestamps

Python date/datetime values are embedded as proleptic-Gregorian field
records.  Day arithmetic (timedelta with a day count) goes through the
standard civil-from-days / days-from-civil conversions, written with floor
division, which is what the C-style shifted truncating divisions of the
usual formulation compute. -/

/-- A Python datetime.date value. -/
structure PyDate where
  year : Nat
  month : Nat
  day : Nat
deriving DecidableEq

/-- A Python datetime.datetime value (naive fields; any parsed UTC offset is
irrelevant to the strftime renderings the program uses). -/
structure PyDateTime where
  year : Nat
  month : Nat
  day : Nat
  hour : Nat
  minute : Nat
  second : Nat
  microsecond : Nat
deriving DecidableEq

/-- Serial day number (days since 1970-01-01) of a civil date. -/
def daysFromCivil (y m d : Nat) : Int :=
  let yi : Int := if m ≤ 2 then (y : Int) - 1 else (y : Int)
  let era : Int := Int.fdiv yi 400
  let yoe : Nat := (yi - era * 400).toNat
  let mp : Nat := if 2 < m then m - 3 else m + 9
  let doy : Nat := (153 * mp + 2) / 5 + d - 1
  let doe : Nat := yoe * 365 + yoe / 4 - yoe / 100 + doy
  era * 146097 + (doe : Int) - 719468

/-- Civil date of a serial day number. -/
def civilFromDays (z : Int) : Nat × Nat × Nat :=
  let zs : Int := z + 719468
  let era : Int := Int.fdiv zs 146097
  let doe : Nat := (zs - era * 146097).toNat
  let yoe : Nat := (doe - doe / 1460 + doe / 36524 - doe / 146096) / 365
  let doy : Nat := doe - (365 * yoe + yoe / 4 - yoe / 100)
  let mp : Nat := (5 * doy + 2) / 153
  let d : Nat := doy - (153 * mp + 2) / 5 + 1
  let m : Nat := if mp < 10 then mp + 3 else mp - 9
  let y : Int := (yoe : Int) + era * 400 + (if m ≤ 2 then 1 else 0)
  (y.toNat, m, d)

/-- Models date + timedelta(days=n). -/
def dateAddDays (d : PyDate) (n : Nat) : PyDate :=
  let c := civilFromDays (daysFromCivil d.year d.month d.day + n)
  ⟨c.1, c.2.1, c.2.2⟩

/-- Models datetime - timedelta(days=n): only the date fields move. -/
def pySubDays (dt : PyDateTime) (n : Nat) : PyDateTime :=
  let c := civilFromDays (daysFromCivil dt.year dt.month dt.day - n)
  { dt with year := c.1, month := c.2.1, day := c.2.2 }

/-- Decimal rendering of a natural number left-padded with zeros. -/
def padZeros (width n : Nat) : String :=
  let s := toString n
  String.mk (List.replicate (width - s.length) '0') ++ s

/-- Models date.strftime of the pattern Y-m-d used when building URLs. -/
def strftimeDate (d : PyDate) : String :=
  padZeros 4 d.year ++ "-" ++ padZeros 2 d.month ++ "-" ++ padZeros 2 d.day

/-- Models datetime.strftime of the pattern Y-m-d H:M used by
_format_slot_time. -/
def strftimeYmdHM (dt : PyDateTime) : String :=
  padZeros 4 dt.year ++ "-" ++ padZeros 2 dt.month ++ "-" ++ padZeros 2 dt.day
    ++ " " ++ padZeros 2 dt.hour ++ ":" ++ padZeros 2 dt.minute

/-- The TEXT value the sqlite CURRENT_TIMESTAMP default stores for sent_at:
YYYY-MM-DD HH:MM:SS with a space separator and no fraction. -/
def currentTimestampStr (dt : PyDateTime) : String :=
  padZeros 4 dt.year ++ "-" ++ padZeros 2 dt.month ++ "-" ++ padZeros 2 dt.day
    ++ " " ++ padZeros 2 dt.hour ++ ":" ++ padZeros 2 dt.minute ++ ":" ++ padZeros 2 dt.second

/-- Models datetime.isoformat(): a T separator, and the microsecond part
only when it is nonzero. -/
def isoformatStr (dt : PyDateTime) : String :=
  padZeros 4 dt.year ++ "-" ++ padZeros 2 dt.month ++ "-" ++ padZeros 2 dt.day
    ++ "T" ++ padZeros 2 dt.hour ++ ":" ++ padZeros 2 dt.minute ++ ":" ++ padZeros 2 dt.second
    ++ (if dt.microsecond = 0 then "" else "." ++ padZeros 6 dt.microsecond)

/-- Chronological order on timestamps (specification device: the real
before relation on instants, used to state what the retention cutoff is
meant to compare). -/
def dtBefore (a b : PyDateTime) : Bool :=
  let za := daysFromCivil a.year a.month a.day
  let zb := daysFromCivil b.year b.month b.day
  let sa := (a.hour * 60 + a.minute) * 60 + a.second
  let sb := (b.hour * 60 + b.minute) * 60 + b.second
  if za < zb then true
  else if zb < za then false
  else if sa < sb then true
  else if sb < sa then false
  else a.microsecond < b.microsecond

/-! ### The dedup store

The sqlite table sent_slots is a list of rows; the autoincrement id is the
list position.  The UNIQUE(doctor_identifier, slot_datetime) constraint is
what makes the INSERT of _mark_slot_as_sent raise IntegrityError exactly
when a row with the same key pair already exists. -/

/-- One row of the sent_slots table. -/
structure SentSlotRecord where
  doctorIdentifier : String
  slotDatetime : String
  sentAt : String
deriving DecidableEq

/-- The sent_slots table, in insertion order. -/
abbrev Store := List SentSlotRecord

/-- Embeds _is_slot_already_sent (src/main.py lines 74-87): COUNT of rows
with the key pair, compared with zero. -/
def isSlotAlreadySent (store : Store) (ident slot : String) : Bool :=
  store.any (fun r => r.doctorIdentifier == ident && r.slotDatetime == slot)

/-- Number of rows carrying a given key pair (the COUNT the SELECT of
_is_slot_already_sent computes). -/
def countKey (store : Store) (ident slot : String) : Nat :=
  (store.filter (fun r => r.doctorIdentifier == ident && r.slotDatetime == slot)).length

/-- Outcome of a commit: a fresh INSERT, or the caught IntegrityError path
logged as already sent. -/
inductive CommitResult where
  | success
  | alreadyExists
deriving DecidableEq

/-- Embeds _mark_slot_as_sent (src/main.py lines 89-105).  The INSERT
raises IntegrityError precisely when the UNIQUE key pair is present, and
that error is swallowed; sent_at takes the CURRENT_TIMESTAMP default. -/
def markSlotAsSent (store : Store) (ident slot : String) (now : PyDateTime) :
    Store × CommitResult :=
  if isSlotAlreadySent store ident slot then (store, .alreadyExists)
  else (store ++ [⟨ident, slot, currentTimestampStr now⟩], .success)

/-- Embeds _cleanup_old_slots (src/main.py lines 107-123): DELETE of the
rows whose stored sent_at TEXT compares below the isoformat rendering of
now minus the retention days. -/
def cleanupOldSlots (store : Store) (now : PyDateTime) (daysOld : Nat) : Store :=
  let cutoff := isoformatStr (pySubDays now daysOld)
  store.filter (fun r => !(strLtB r.sentAt cutoff))

/-! ### URL generation -/

/-- Embeds _generate_url_with_date (src/main.py lines 125-142): if the
template contains the substring start_date= it is split on ampersands and
only the pieces that begin with start_date= are rewritten, else the dated
parameter is appended after ? or &. -/
def generateUrlWithDate (baseUrl : String) (startDate : PyDate) : String :=
  let dateStr := strftimeDate startDate
  if hasSubstr baseUrl "start_date=" then
    let parts := splitChar '&' baseUrl.toList
    let newParts := parts.map (fun part =>
      if startsWithList "start_date=".toList part then ("start_date=" ++ dateStr).toList
      else part)
    String.mk (joinChar '&' newParts)
  else
    let separator := if hasSubstr baseUrl "?" then "&" else "?"
    baseUrl ++ separator ++ "start_date=" ++ dateStr

/-- Embeds _generate_urls_for_period (src/main.py lines 144-157): the
horizon is cut into ceil(days/15) chunks and chunk i is dated
today + i*15 days. -/
def generateUrlsForPeriod (daysToCheck : Nat) (today : PyDate) (baseUrl : String) :
    List String :=
  let chunksNeeded := (daysToCheck + 14) / 15
  (List.range chunksNeeded).map (fun i => generateUrlWithDate baseUrl (dateAddDays today (i * 15)))

/-! ### Slot-time formatting

datetime.fromisoformat is modelled as a character-list parser of the forms
the CPython parser accepts on the inputs of this program: a four-digit year date,
an optional single separator character followed by HH, optional :MM, :SS,
a fractional part, and an optional UTC offset of the shape Z or sign
HH:MM[:SS].  A parse failure stands for the ValueError (or, on non-string
input, AttributeError) that the try block of _format_slot_time catches. -/

/-- Reads exactly n ASCII digits, accumulating their value. -/
def readFixedNat : Nat → Nat → List Char → Option (Nat × List Char)
  | 0, acc, cs => some (acc, cs)
  | n + 1, acc, c :: cs =>
    if c.isDigit then readFixedNat n (acc * 10 + (c.toNat - 48)) cs else none
  | _ + 1, _, [] => none

/-- Takes the maximal run of leading ASCII digits. -/
def takeDigits : List Char → List Char × List Char
  | [] => ([], [])
  | c :: cs =>
    if c.isDigit then
      let p := takeDigits cs
      (c :: p.1, p.2)
    else ([], c :: cs)

/-- Value of a digit run. -/
def digitsVal (ds : List Char) : Nat :=
  ds.foldl (fun a c => a * 10 + (c.toNat - 48)) 0

/-- Gregorian leap-year test. -/
def isLeapYear (y : Nat) : Bool :=
  y % 4 == 0 && (y % 100 != 0 || y % 400 == 0)

/-- Length of a month. -/
def daysInMonth (y m : Nat) : Nat :=
  if m == 2 then (if isLeapYear y then 29 else 28)
  else if m == 4 || m == 6 || m == 9 || m == 11 then 30
  else 31

/-- Accepts an absent or complete, in-range UTC offset suffix. -/
def parseOffsetChars : List Char → Bool
  | [] => true
  | ['Z'] => true
  | ['z'] => true
  | c :: rest =>
    (c == '+' || c == '-') &&
    (match readFixedNat 2 0 rest with
     | some (oh, ':' :: r2) =>
       decide (oh < 24) &&
       (match readFixedNat 2 0 r2 with
        | some (om, r3) =>
          decide (om ≤ 59) &&
          (match r3 with
           | [] => true
           | ':' :: r4 =>
             (match readFixedNat 2 0 r4 with
              | some (os, []) => decide (os ≤ 59)
              | _ => false)
           | _ => false)
        | none => false)
     | _ => false)

/-- Parses the time-of-day part with its optional fraction and offset. -/
def parseTimeChars (cs : List Char) : Option (Nat × Nat × Nat × Nat) :=
  match readFixedNat 2 0 cs with
  | none => none
  | some (h, rest) =>
    if 24 ≤ h then none else
    match rest with
    | ':' :: r1 =>
      match readFixedNat 2 0 r1 with
      | none => none
      | some (mi, rest2) =>
        if 60 ≤ mi then none else
        match rest2 with
        | ':' :: r2 =>
          match readFixedNat 2 0 r2 with
          | none => none
          | some (s, rest3) =>
            if 60 ≤ s then none else
            match rest3 with
            | '.' :: r3 | ',' :: r3 =>
              let p := takeDigits r3
              if decide (1 ≤ p.1.length) && decide (p.1.length ≤ 6) && parseOffsetChars p.2 then
                some (h, mi, s, digitsVal p.1 * 10 ^ (6 - p.1.length))
              else none
            | rest3x => if parseOffsetChars rest3x then some (h, mi, s, 0) else none
        | rest2x => if parseOffsetChars rest2x then some (h, mi, 0, 0) else none
    | restx => if parseOffsetChars restx then some (h, 0, 0, 0) else none

/-- Models datetime.fromisoformat on the accepted shapes. -/
def pyFromIsoformatChars (cs : List Char) : Option PyDateTime :=
  match readFixedNat 4 0 cs with
  | some (y, '-' :: r1) =>
    (match readFixedNat 2 0 r1 with
     | some (m, '-' :: r2) =>
       (match readFixedNat 2 0 r2 with
        | some (d, rest) =>
          if decide (1 ≤ y) && decide (1 ≤ m) && decide (m ≤ 12)
              && decide (1 ≤ d) && decide (d ≤ daysInMonth y m) then
            match rest with
            | [] => some ⟨y, m, d, 0, 0, 0, 0⟩
            | _sep :: timePart =>
              match parseTimeChars timePart with
              | some (h, mi, s, us) => some ⟨y, m, d, h, mi, s, us⟩
              | none => none
          else none
        | _ => none)
     | _ => none)
  | _ => none

/-- Models datetime.fromisoformat on strings. -/
def pyFromIsoformat (s : String) : Option PyDateTime :=
  pyFromIsoformatChars s.toList

/-- The argument _format_slot_time passes to fromisoformat:
slot.replace(Z, +00:00). -/
def pyReplaceZ (slot : String) : String :=
  String.mk (replaceChar 'Z' "+00:00".toList slot.toList)

/-- Embeds _format_slot_time (src/main.py lines 235-242): parse the
Z-normalized slot and render it as Y-m-d H:M; any exception is caught and
the slot returned unchanged. -/
def formatSlotTime (slot : String) : String :=
  match pyFromIsoformat (pyReplaceZ slot) with
  | some dt => strftimeYmdHM dt
  | none => slot

/-! ### The per-doctor pipeline

_process_doctor is embedded as a function of the store, the doctor
identifier, the list of fetch results of the windows of the cycle (one JSON
value per window; fetch failures already appear as the empty dict because
_fetch_availabilities swallows every error), and the notifier outcome: the
boolean _send_discord_notification would return for the batch message.
The sqlite connections are the single threaded store value. -/

/-- The result-processing loop of _process_doctor (src/main.py lines
260-267): for each truthy window result, extract its slots and append the
ones whose key pair is not yet stored.  The store is only read here, so a
slot recurring across windows is appended once per occurrence. -/
def collectLoop (store : Store) (ident : String) (acc : List String) :
    List JValue → Except PyError (List String)
  | [] => .ok acc
  | data :: rest =>
    if data.truthy then
      match extractSlotStrings data with
      | .error e => .error e
      | .ok slots =>
        collectLoop store ident
          (acc ++ slots.filter (fun slot => !(isSlotAlreadySent store ident slot))) rest
    else collectLoop store ident acc rest

/-- The new_slots list _process_doctor has accumulated after its
result-processing loop. -/
def collectNewSlots (store : Store) (ident : String) (results : List JValue) :
    Except PyError (List String) :=
  collectLoop store ident [] results

/-- The same loop without the dedup filter: the in-order concatenation of
the extracted slots of the truthy window results (specification device for
comparing the filtered loop against the raw slot stream). -/
def flatLoop (acc : List String) : List JValue → Except PyError (List String)
  | [] => .ok acc
  | data :: rest =>
    if data.truthy then
      match extractSlotStrings data with
      | .error e => .error e
      | .ok slots => flatLoop (acc ++ slots) rest
    else flatLoop acc rest

/-- In-order slot stream of the window results of one cycle. -/
def flatSlots (results : List JValue) : Except PyError (List String) :=
  flatLoop [] results

/-- The notification message _process_doctor builds (src/main.py lines
271-274): header, up to ten bulleted formatted slots, and a summary line
when truncated. -/
def buildMessage (ident : String) (newSlots : List String) : String :=
  let formattedSlots := newSlots.map formatSlotTime
  let message := "**New slots for " ++ ident ++ ":**\n"
      ++ String.intercalate "\n" ((formattedSlots.take 10).map (fun slot => "• " ++ slot))
  if 10 < newSlots.length then
    message ++ "\n... and " ++ toString (newSlots.length - 10) ++ " more slots"
  else message

/-- Observable outcome of one doctor in one cycle: the store afterwards, and the
message handed to the notifier, if it was invoked at all. -/
structure ProcessOutcome where
  store : Store
  sentMessage : Option String
deriving DecidableEq

/-- Embeds _process_doctor (src/main.py lines 244-288) from the point where
the window results are in hand: build new_slots; if empty, do nothing; if
non-empty, invoke the notifier with the batch message and mark every new
slot as sent only when delivery succeeded. -/
def processDoctor (store : Store) (ident : String) (results : List JValue)
    (notifierOk : Bool) (now : PyDateTime) : Except PyError ProcessOutcome :=
  match collectNewSlots store ident results with
  | .error e => .error e
  | .ok newSlots =>
    if newSlots.isEmpty then .ok ⟨store, none⟩
    else
      let message := buildMessage ident newSlots
      if notifierOk then
        .ok ⟨newSlots.foldl (fun st slot => (markSlotAsSent st ident slot now).1) store,
             some message⟩
      else .ok ⟨store, some message⟩

/-! ### Store lemmas -/

/-- Splitting the key count over an append of stores. -/
theorem countKey_append (a b : Store) (ident slot : String) :
    countKey (a ++ b) ident slot = countKey a ident slot + countKey b ident slot := by
  simp [countKey, List.filter_append]

/-- A key pair absent from the existence check has zero rows. -/
theorem countKey_eq_zero_of_not_sent {store : Store} {ident slot : String}
    (h : isSlotAlreadySent store ident slot = false) :
    countKey store ident slot = 0 := by
  simp only [isSlotAlreadySent, List.any_eq_false] at h
  simp only [countKey, List.length_eq_zero, List.filter_eq_nil_iff]
  intro r hr
  exact h r hr

/-- A key pair present in the existence check has at least one row. -/
theorem one_le_countKey_of_sent {store : Store} {ident slot : String}
    (h : isSlotAlreadySent store ident slot = true) :
    1 ≤ countKey store ident slot := by
  simp only [isSlotAlreadySent, List.any_eq_true] at h
  obtain ⟨r, hr, hp⟩ := h
  have : r ∈ store.filter (fun r => r.doctorIdentifier == ident && r.slotDatetime == slot) :=
    List.mem_filter.mpr ⟨hr, hp⟩
  have hne := List.ne_nil_of_mem this
  simpa [countKey, Nat.one_le_iff_ne_zero, List.length_eq_zero] using hne

/-- A commit on a key pair already present returns the store unchanged with
the already-exists outcome. -/
theorem markSlotAsSent_of_sent {store : Store} {ident slot : String} (now : PyDateTime)
    (h : isSlotAlreadySent store ident slot = true) :
    markSlotAsSent store ident slot now = (store, CommitResult.alreadyExists) := by
  simp [markSlotAsSent, h]

/-- A commit on an absent key pair appends one fresh row. -/
theorem markSlotAsSent_of_not_sent {store : Store} {ident slot : String} (now : PyDateTime)
    (h : isSlotAlreadySent store ident slot = false) :
    markSlotAsSent store ident slot now
      = (store ++ [⟨ident, slot, currentTimestampStr now⟩], CommitResult.success) := by
  simp [markSlotAsSent, h]

/-- After a commit, the committed key pair passes the existence check. -/
theorem isSlotAlreadySent_markSlotAsSent_self (store : Store) (ident slot : String)
    (now : PyDateTime) :
    isSlotAlreadySent (markSlotAsSent store ident slot now).1 ident slot = true := by
  cases h : isSlotAlreadySent store ident slot
  · rw [markSlotAsSent_of_not_sent now h]
    simp [isSlotAlreadySent, List.any_append]
  · rw [markSlotAsSent_of_sent now h]
    exact h

/-- Claim C2: for every store satisfying the UNIQUE-constraint invariant (at most
one row per key pair, which is what the sqlite constraint enforces),
committing the same (entityIdentifier, slot) pair twice leaves exactly one
record with that key; the second call is not an error but a no-op
signaling already recorded, and the store after the second commit equals
the store after the first. -/
theorem idempotent_commit (store : Store) (ident slot : String) (t1 t2 : PyDateTime)
    (hinv : countKey store ident slot ≤ 1) :
    markSlotAsSent (markSlotAsSent store ident slot t1).1 ident slot t2
      = ((markSlotAsSent store ident slot t1).1, CommitResult.alreadyExists) ∧
    countKey (markSlotAsSent store ident slot t1).1 ident slot = 1 := by
  refine ⟨markSlotAsSent_of_sent t2 (isSlotAlreadySent_markSlotAsSent_self store ident slot t1), ?_⟩
  cases h : isSlotAlreadySent store ident slot
  · rw [markSlotAsSent_of_not_sent t1 h]
    have h0 := countKey_eq_zero_of_not_sent h
    rw [countKey_append, h0]
    simp [countKey]
  · rw [markSlotAsSent_of_sent t1 h]
    have h1 := one_le_countKey_of_sent h
    show countKey store ident slot = 1
    omega

/-- Witness: idempotent_commit applied to the empty store and a concrete
key pair. -/
theorem idempotent_commit_witness :
    markSlotAsSent
        (markSlotAsSent [] "doc" "2025-06-10T09:00:00Z" ⟨2025, 6, 2, 10, 0, 0, 0⟩).1
        "doc" "2025-06-10T09:00:00Z" ⟨2025, 6, 3, 10, 0, 0, 0⟩
      = ((markSlotAsSent [] "doc" "2025-06-10T09:00:00Z" ⟨2025, 6, 2, 10, 0, 0, 0⟩).1,
         CommitResult.alreadyExists) ∧
    countKey (markSlotAsSent [] "doc" "2025-06-10T09:00:00Z" ⟨2025, 6, 2, 10, 0, 0, 0⟩).1
        "doc" "2025-06-10T09:00:00Z" = 1 :=
  idempotent_commit [] "doc" "2025-06-10T09:00:00Z" ⟨2025, 6, 2, 10, 0, 0, 0⟩
    ⟨2025, 6, 3, 10, 0, 0, 0⟩ (by decide)

/-! ### Equation lemmas for the result-processing loops -/

/-- Step of collectLoop on a truthy window whose extraction succeeds. -/
theorem collectLoop_cons_truthy_ok {store : Store} {ident : String} {acc : List String}
    {data : JValue} {rest : List JValue} {slots : List String}
    (ht : data.truthy = true) (hex : extractSlotStrings data = Except.ok slots) :
    collectLoop store ident acc (data :: rest)
      = collectLoop store ident
          (acc ++ slots.filter (fun slot => !(isSlotAlreadySent store ident slot))) rest := by
  rw [collectLoop, if_pos ht, hex]

/-- Step of collectLoop on a truthy window whose extraction raises. -/
theorem collectLoop_cons_truthy_err {store : Store} {ident : String} {acc : List String}
    {data : JValue} {rest : List JValue} {e : PyError}
    (ht : data.truthy = true) (hex : extractSlotStrings data = Except.error e) :
    collectLoop store ident acc (data :: rest) = Except.error e := by
  rw [collectLoop, if_pos ht, hex]

/-- Step of collectLoop on a falsy window result. -/
theorem collectLoop_cons_falsy {store : Store} {ident : String} {acc : List String}
    {data : JValue} {rest : List JValue} (ht : data.truthy = false) :
    collectLoop store ident acc (data :: rest) = collectLoop store ident acc rest := by
  rw [collectLoop, if_neg (by simp [ht])]

/-- Step of flatLoop on a truthy window whose extraction succeeds. -/
theorem flatLoop_cons_truthy_ok {acc : List String} {data : JValue} {rest : List JValue}
    {slots : List String}
    (ht : data.truthy = true) (hex : extractSlotStrings data = Except.ok slots) :
    flatLoop acc (data :: rest) = flatLoop (acc ++ slots) rest := by
  rw [flatLoop, if_pos ht, hex]

/-- Step of flatLoop on a truthy window whose extraction raises. -/
theorem flatLoop_cons_truthy_err {acc : List String} {data : JValue} {rest : List JValue}
    {e : PyError} (ht : data.truthy = true) (hex : extractSlotStrings data = Except.error e) :
    flatLoop acc (data :: rest) = Except.error e := by
  rw [flatLoop, if_pos ht, hex]

/-- Step of flatLoop on a falsy window result. -/
theorem flatLoop_cons_falsy {acc : List String} {data : JValue} {rest : List JValue}
    (ht : data.truthy = false) :
    flatLoop acc (data :: rest) = flatLoop acc rest := by
  rw [flatLoop, if_neg (by simp [ht])]

/-- Every slot the result-processing loop adds beyond its accumulator
failed the already-sent check against the store the cycle reads. -/
theorem mem_of_collectLoop (store : Store) (ident : String) (results : List JValue) :
    ∀ acc ns, collectLoop store ident acc results = Except.ok ns →
      ∀ s ∈ ns, s ∈ acc ∨ isSlotAlreadySent store ident s = false := by
  induction results with
  | nil =>
    intro acc ns h s hs
    simp only [collectLoop, Except.ok.injEq] at h
    subst h
    exact Or.inl hs
  | cons data rest ih =>
    intro acc ns h s hs
    cases ht : data.truthy with
    | false =>
      rw [collectLoop_cons_falsy ht] at h
      exact ih _ _ h s hs
    | true =>
      cases hex : extractSlotStrings data with
      | error e =>
        rw [collectLoop_cons_truthy_err ht hex] at h
        exact Except.noConfusion h
      | ok slots =>
        rw [collectLoop_cons_truthy_ok ht hex] at h
        rcases ih _ _ h s hs with hacc | hfalse
        · rcases List.mem_append.mp hacc with h1 | h2
          · exact Or.inl h1
          · right
            have h3 := (List.mem_filter.mp h2).2
            simpa using h3
        · exact Or.inr hfalse

/-- Reduction of _process_doctor once its new_slots list is known. -/
theorem processDoctor_ok {store : Store} {ident : String} {results : List JValue}
    {notifierOk : Bool} {now : PyDateTime} {newSlots : List String}
    (hnew : collectNewSlots store ident results = Except.ok newSlots) :
    processDoctor store ident results notifierOk now =
      if newSlots.isEmpty then Except.ok ⟨store, none⟩
      else if notifierOk then
        Except.ok ⟨newSlots.foldl (fun st slot => (markSlotAsSent st ident slot now).1) store,
                   some (buildMessage ident newSlots)⟩
      else Except.ok ⟨store, some (buildMessage ident newSlots)⟩ := by
  rw [processDoctor, hnew]

/-- Claim C1: if the notifier reports delivery failure for the non-empty
batch of new slots of a cycle, _process_doctor commits none of them: the
store is unchanged and holds zero records for each of the key
pairs of the batch, so the next cycle sees them all as new again. -/
theorem no_premature_commit (store : Store) (ident : String) (results : List JValue)
    (now : PyDateTime) (newSlots : List String) (out : ProcessOutcome)
    (hnew : collectNewSlots store ident results = Except.ok newSlots)
    (hne : newSlots ≠ [])
    (hrun : processDoctor store ident results false now = Except.ok out) :
    out.store = store ∧ ∀ slot ∈ newSlots, countKey out.store ident slot = 0 := by
  rw [processDoctor_ok hnew] at hrun
  have hemp : newSlots.isEmpty = false := by
    cases newSlots
    · exact absurd rfl hne
    · rfl
  rw [hemp] at hrun
  simp only [Bool.false_eq_true, if_false, Except.ok.injEq] at hrun
  subst hrun
  refine ⟨rfl, ?_⟩
  intro slot hs
  rcases mem_of_collectLoop store ident results [] newSlots hnew slot hs with hnil | hfalse
  · exact absurd hnil (List.not_mem_nil slot)
  · exact countKey_eq_zero_of_not_sent hfalse

/-- The window result used by the concrete pipeline witnesses: one
availability entry carrying one slot. -/
def npcWin : JValue :=
  .obj [("availabilities", .arr [.obj [("slots", .arr [.str "2025-06-10T09:00:00Z"])]])]

/-- The message the pipeline builds for that window under identifier doc. -/
def npcMsg : String := "**New slots for doc:**\n• 2025-06-10 09:00"

/-- Witness: no_premature_commit applied to an empty store, one window with
one fresh slot, and a failing notifier. -/
theorem no_premature_commit_witness :
    countKey (ProcessOutcome.mk [] (some npcMsg)).store "doc" "2025-06-10T09:00:00Z" = 0 :=
  (no_premature_commit [] "doc" [npcWin] ⟨2025, 6, 2, 10, 0, 0, 0⟩
      ["2025-06-10T09:00:00Z"] ⟨[], some npcMsg⟩ (by rfl) (by decide) (by rfl)).2
    "2025-06-10T09:00:00Z" (by decide)

/-- When every slot any successful extraction yields is already stored, the
result-processing loop adds nothing to its accumulator. -/
theorem collectLoop_eq_acc (store : Store) (ident : String) :
    ∀ results : List JValue,
      (∀ data ∈ results, ∀ slots, extractSlotStrings data = Except.ok slots →
        ∀ s ∈ slots, isSlotAlreadySent store ident s = true) →
      ∀ acc ns, collectLoop store ident acc results = Except.ok ns → ns = acc := by
  intro results
  induction results with
  | nil =>
    intro _ acc ns h
    simp only [collectLoop, Except.ok.injEq] at h
    exact h.symm
  | cons data rest ih =>
    intro hall acc ns h
    have hallrest : ∀ d ∈ rest, ∀ slots, extractSlotStrings d = Except.ok slots →
        ∀ s ∈ slots, isSlotAlreadySent store ident s = true :=
      fun d hd => hall d (List.mem_cons_of_mem _ hd)
    cases ht : data.truthy with
    | false =>
      rw [collectLoop_cons_falsy ht] at h
      exact ih hallrest _ _ h
    | true =>
      cases hex : extractSlotStrings data with
      | error e =>
        rw [collectLoop_cons_truthy_err ht hex] at h
        exact Except.noConfusion h
      | ok slots =>
        rw [collectLoop_cons_truthy_ok ht hex] at h
        have hfilter : slots.filter (fun slot => !(isSlotAlreadySent store ident slot)) = [] := by
          rw [List.filter_eq_nil_iff]
          intro s hs
          have hsent := hall data (List.mem_cons_self data rest) slots hex s hs
          simp [hsent]
        rw [hfilter, List.append_nil] at h
        exact ih hallrest _ _ h

/-- Claim C4: if every slot extracted in a cycle already exists in the
dedup store, the notifier is not invoked for that doctor in that cycle and
the store is left untouched. -/
theorem silence_on_empty_diff (store : Store) (ident : String) (results : List JValue)
    (notifierOk : Bool) (now : PyDateTime) (out : ProcessOutcome)
    (hall : ∀ data ∈ results, ∀ slots, extractSlotStrings data = Except.ok slots →
      ∀ s ∈ slots, isSlotAlreadySent store ident s = true)
    (hrun : processDoctor store ident results notifierOk now = Except.ok out) :
    out.sentMessage = none ∧ out.store = store := by
  cases hc : collectNewSlots store ident results with
  | error e =>
    rw [processDoctor, hc] at hrun
    exact Except.noConfusion hrun
  | ok ns =>
    have hns : ns = [] := collectLoop_eq_acc store ident results hall [] ns hc
    subst hns
    rw [processDoctor_ok hc] at hrun
    have h2 : (⟨store, none⟩ : ProcessOutcome) = out := Except.ok.inj hrun
    rw [← h2]
    exact ⟨rfl, rfl⟩

/-- The store used by the silence witness: the one slot of npcWin is
already recorded. -/
def c4store : Store := [⟨"doc", "2025-06-10T09:00:00Z", "2025-06-02 10:00:00"⟩]

/-- Witness: silence_on_empty_diff applied to a store that already holds
the only extracted slot. -/
theorem silence_on_empty_diff_witness :
    (ProcessOutcome.mk c4store none).sentMessage = none ∧
    (ProcessOutcome.mk c4store none).store = c4store :=
  silence_on_empty_diff c4store "doc" [npcWin] true ⟨2025, 6, 2, 10, 0, 0, 0⟩
    ⟨c4store, none⟩
    (by
      intro data hd slots hs s hsl
      rw [List.mem_singleton] at hd
      subst hd
      rw [show extractSlotStrings npcWin = Except.ok ["2025-06-10T09:00:00Z"] from rfl] at hs
      injection hs with h
      subst h
      rw [List.mem_singleton] at hsl
      subst hsl
      decide)
    (by rfl)

/-- Claim C8 counterexample: with an empty store, a slot string appearing
in two windows of the same cycle occurs twice in the candidate new-slots
list: the filtering is not first-seen-wins within a cycle. -/
theorem collect_new_slots_duplicate_counterexample :
    collectNewSlots [] "doc" [npcWin, npcWin]
      = Except.ok ["2025-06-10T09:00:00Z", "2025-06-10T09:00:00Z"] ∧
    ¬ List.Nodup ["2025-06-10T09:00:00Z", "2025-06-10T09:00:00Z"] :=
  ⟨rfl, by decide⟩

/-- The filtered loop is the unfiltered loop followed by one filter pass. -/
theorem collectLoop_filter_of_flatLoop (store : Store) (ident : String) :
    ∀ (results : List JValue) (acc allSlots : List String),
      flatLoop acc results = Except.ok allSlots →
      collectLoop store ident
          (acc.filter (fun s => !(isSlotAlreadySent store ident s))) results
        = Except.ok (allSlots.filter (fun s => !(isSlotAlreadySent store ident s))) := by
  intro results
  induction results with
  | nil =>
    intro acc allSlots h
    simp only [flatLoop, Except.ok.injEq] at h
    subst h
    rfl
  | cons data rest ih =>
    intro acc allSlots h
    cases ht : data.truthy with
    | false =>
      rw [flatLoop_cons_falsy ht] at h
      rw [collectLoop_cons_falsy ht]
      exact ih _ _ h
    | true =>
      cases hex : extractSlotStrings data with
      | error e =>
        rw [flatLoop_cons_truthy_err ht hex] at h
        exact Except.noConfusion h
      | ok slots =>
        rw [flatLoop_cons_truthy_ok ht hex] at h
        rw [collectLoop_cons_truthy_ok ht hex, ← List.filter_append]
        exact ih _ _ h

/-- Claim C8 (amended): the candidate new-slots list is exactly the
in-order stream of extracted slots of the cycle filtered by the
not-already-sent check: window order and source order are preserved and
every element is absent from the store, but every occurrence is kept, so a
slot recurring across windows recurs in the list; the pair is collapsed to
one record only by the idempotent insert at commit time. -/
theorem new_slots_eq_filtered_stream (store : Store) (ident : String)
    (results : List JValue) (allSlots : List String)
    (h : flatSlots results = Except.ok allSlots) :
    collectNewSlots store ident results
      = Except.ok (allSlots.filter (fun s => !(isSlotAlreadySent store ident s))) :=
  collectLoop_filter_of_flatLoop store ident results [] allSlots h

/-- A two-slot window for the filtered-stream witness. -/
def c8win : JValue :=
  .obj [("availabilities", .arr [.obj [("slots", .arr [.str "A", .str "B"])]])]

/-- A store already holding slot A for the filtered-stream witness. -/
def c8store : Store := [⟨"doc", "A", "2025-06-02 10:00:00"⟩]

/-- Witness: new_slots_eq_filtered_stream applied to a window carrying
slots A and B over a store that already holds A. -/
theorem new_slots_eq_filtered_stream_witness :
    collectNewSlots c8store "doc" [c8win]
      = Except.ok (["A", "B"].filter (fun s => !(isSlotAlreadySent c8store "doc" s))) :=
  new_slots_eq_filtered_stream c8store "doc" [c8win] ["A", "B"] (by rfl)

/-- Claim C9 counterexample: a fetch result whose availabilities value is
a number makes _extract_available_slots raise a TypeError when iterating
it, instead of returning the empty sequence. -/
theorem extract_raises_on_malformed_counterexample :
    extractAvailableSlots (JValue.obj [("availabilities", JValue.num 5)])
      = Except.error PyError.typeError := rfl

/-- On a well-shaped availabilities array the entry loop flattens the slot
lists in order. -/
theorem extractLoop_wellshaped :
    ∀ (entries : List (List JValue)) (acc : List JValue),
      extractLoop acc (entries.map (fun l => JValue.obj [("slots", JValue.arr l)]))
        = Except.ok (acc ++ entries.flatten) := by
  intro entries
  induction entries with
  | nil =>
    intro acc
    simp [extractLoop]
  | cons l rest ih =>
    intro acc
    rw [List.map_cons]
    cases l with
    | nil =>
      have hstep : extractLoop acc
          (JValue.obj [("slots", JValue.arr [])]
            :: rest.map (fun l => JValue.obj [("slots", JValue.arr l)]))
          = extractLoop acc (rest.map (fun l => JValue.obj [("slots", JValue.arr l)])) := rfl
      rw [hstep, ih acc]
      simp
    | cons x xs =>
      have hstep : extractLoop acc
          (JValue.obj [("slots", JValue.arr (x :: xs))]
            :: rest.map (fun l => JValue.obj [("slots", JValue.arr l)]))
          = extractLoop (acc ++ (x :: xs))
              (rest.map (fun l => JValue.obj [("slots", JValue.arr l)])) := rfl
      rw [hstep, ih (acc ++ (x :: xs))]
      simp

/-- Claim C9 (amended): when the availabilities key is absent from a dict
fetch result, extraction returns the empty sequence without an error, and
on the expected shape (an array of dict entries with array slot lists) it
returns the in-order concatenation of the slot lists; but on malformed
shapes the code raises instead of returning empty (see the
counterexample). -/
theorem extract_empty_on_absent_and_flattens_wellshaped
    (fs : List (String × JValue)) (entries : List (List JValue)) :
    (fs.any (fun f => f.fst == "availabilities") = false →
      extractAvailableSlots (JValue.obj fs) = Except.ok []) ∧
    extractAvailableSlots
        (JValue.obj [("availabilities",
          JValue.arr (entries.map (fun l => JValue.obj [("slots", JValue.arr l)])))])
      = Except.ok entries.flatten := by
  constructor
  · intro h
    have h1 : pyContains "availabilities" (JValue.obj fs) = Except.ok false := by
      rw [pyContains, h]
    rw [extractAvailableSlots, h1]
  · have h2 : extractAvailableSlots
        (JValue.obj [("availabilities",
          JValue.arr (entries.map (fun l => JValue.obj [("slots", JValue.arr l)])))])
        = extractLoop [] (entries.map (fun l => JValue.obj [("slots", JValue.arr l)])) := rfl
    rw [h2, extractLoop_wellshaped entries []]
    simp

/-- Witness: extraction on a dict without the availabilities key, and on a
well-shaped two-entry response. -/
theorem extract_empty_and_flattens_witness :
    extractAvailableSlots (JValue.obj [("foo", JValue.null)]) = Except.ok [] ∧
    extractAvailableSlots
        (JValue.obj [("availabilities",
          JValue.arr [JValue.obj [("slots", JValue.arr [JValue.str "A"])],
                      JValue.obj [("slots", JValue.arr [JValue.str "B"])]])])
      = Except.ok [JValue.str "A", JValue.str "B"] := by
  have h := extract_empty_on_absent_and_flattens_wellshaped
    [("foo", JValue.null)] [[JValue.str "A"], [JValue.str "B"]]
  exact ⟨h.1 (by rfl), by simpa using h.2⟩

/-- The eviction instant of the retention evidence: 2025-09-12 14:30:00,
whose 30-day cutoff is 2025-08-13 14:30:00. -/
def c6now : PyDateTime := ⟨2025, 9, 12, 14, 30, 0, 0⟩

/-- A record stamped 2025-08-13 16:00:00: one and a half hours newer than
the cutoff instant. -/
def c6recordTime : PyDateTime := ⟨2025, 8, 13, 16, 0, 0, 0⟩

/-- The store holding that single record. -/
def c6store : Store := [⟨"doc", "2025-10-01T09:00:00Z", currentTimestampStr c6recordTime⟩]

/-- Claim C6 (code-bug evidence): the eviction pass deletes a record that
is strictly newer than the 30-day cutoff instant.  The stored sent_at uses
the CURRENT_TIMESTAMP shape with a space separator while the cutoff bound
is an isoformat string with a T separator, and on the
calendar day of the cutoff the space compares below the T, so the DELETE matches the
record although its timestamp is after the cutoff. -/
theorem cleanup_deletes_record_newer_than_cutoff :
    dtBefore (pySubDays c6now 30) c6recordTime = true ∧
    isSlotAlreadySent c6store "doc" "2025-10-01T09:00:00Z" = true ∧
    cleanupOldSlots c6store c6now 30 = [] ∧
    isSlotAlreadySent (cleanupOldSlots c6store c6now 30) "doc" "2025-10-01T09:00:00Z"
      = false := by
  refine ⟨by decide, by decide, by decide, by decide⟩

/-- A template whose start_date parameter is the first query parameter. -/
def leadingDateTemplate : String :=
  "https://partners.doctolib.fr/availabilities.json?start_date=2025-01-01&limit=15"

/-- Claim C7 (code-bug evidence): a template that carries a start_date
parameter as its first query parameter is returned unchanged: splitting on
ampersands leaves start_date glued to the path piece, which does not begin
with start_date=, so nothing is replaced, and because the substring test
succeeded nothing is appended either; the requested date never appears. -/
theorem generate_url_keeps_old_date_for_leading_param :
    generateUrlWithDate leadingDateTemplate ⟨2025, 6, 2⟩ = leadingDateTemplate ∧
    hasSubstr (generateUrlWithDate leadingDateTemplate ⟨2025, 6, 2⟩) "2025-06-02" = false := by
  refine ⟨by decide, by decide⟩

/-- Claim C3 (code-bug evidence): for horizon 100 the windower does produce
exactly seven queries, but with the leading-start_date template every one
of them is the unchanged template, still carrying start_date=2025-01-01
instead of today plus i*15 days: the date-substitution slip propagates to
every window of the cycle. -/
theorem windower_keeps_old_date_for_leading_param :
    (generateUrlsForPeriod 100 ⟨2025, 6, 2⟩ leadingDateTemplate).length = 7 ∧
    generateUrlsForPeriod 100 ⟨2025, 6, 2⟩ leadingDateTemplate
      = [leadingDateTemplate, leadingDateTemplate, leadingDateTemplate, leadingDateTemplate,
         leadingDateTemplate, leadingDateTemplate, leadingDateTemplate] ∧
    hasSubstr ((generateUrlsForPeriod 100 ⟨2025, 6, 2⟩ leadingDateTemplate).getD 0 "")
      "start_date=2025-06-02" = false := by
  refine ⟨by decide, by decide, by decide⟩

/-- Claim C10: slot-time formatting is total with identity fallback: when
the Z-normalized slot string fails to parse, _format_slot_time returns the
input unchanged (the caught-exception path), and when it parses, the
Y-m-d H:M rendering of the parsed fields is returned; no input aborts
message construction. -/
theorem format_slot_time_total (slot : String) :
    (pyFromIsoformat (pyReplaceZ slot) = none → formatSlotTime slot = slot) ∧
    (∀ dt, pyFromIsoformat (pyReplaceZ slot) = some dt →
      formatSlotTime slot = strftimeYmdHM dt) := by
  constructor
  · intro h
    rw [formatSlotTime, h]
  · intro dt h
    rw [formatSlotTime, h]

/-- Witness: format_slot_time_total applied to a parseable Z-suffixed slot
and to an unparseable string. -/
theorem format_slot_time_total_witness :
    formatSlotTime "2025-06-10T09:00:00Z" = "2025-06-10 09:00" ∧
    formatSlotTime "not a timestamp" = "not a timestamp" :=
  ⟨(format_slot_time_total "2025-06-10T09:00:00Z").2 ⟨2025, 6, 10, 9, 0, 0, 0⟩ (by rfl),
   (format_slot_time_total "not a timestamp").1 (by rfl)⟩

end DoctolibWatcher
